import Mathlib

/-!
Shallow embedding of the CudaPlayground 2D physics core.

Scalars are modelled as `ℚ` (exact arithmetic standing for the C++ `float`
computations; floating-point rounding is out of scope).  `std::sqrt` is
modelled by `Rat.sqrt`, which agrees with the real square root whenever the
radicand is a perfect square.

Grid cells hold body references (`body*` in C++); we model a reference as the
body's index in the world's body list.
-/

/-- 2D vector, from `vec2.hpp` / the `vec2` value type used throughout. -/
structure vec2 where
  x : ℚ
  y : ℚ
deriving DecidableEq, Repr

instance : Add vec2 := ⟨fun a b => ⟨a.x + b.x, a.y + b.y⟩⟩

instance : Sub vec2 := ⟨fun a b => ⟨a.x - b.x, a.y - b.y⟩⟩

instance : HMul vec2 ℚ vec2 := ⟨fun v s => ⟨v.x * s, v.y * s⟩⟩

theorem vec2.add_def (a b : vec2) : a + b = ⟨a.x + b.x, a.y + b.y⟩ := rfl

theorem vec2.sub_def (a b : vec2) : a - b = ⟨a.x - b.x, a.y - b.y⟩ := rfl

theorem vec2.smul_def (v : vec2) (s : ℚ) : v * s = ⟨v.x * s, v.y * s⟩ := rfl

/-- One simulated particle, fields as in `body.hpp` / `body.cpp`
(`world.cpp` refers to the same fields by their Spanish names
`posicion`/`velocidad`/`aceleracion`). -/
structure Body where
  position : vec2
  previous_position : vec2
  velocity : vec2
  acceleration : vec2
  mass : ℚ
  inv_mass : ℚ
  radius : ℚ
  damping : ℚ
  friction : ℚ
  restitution : ℚ
deriving DecidableEq, Repr

/-- The 9-argument constructor `body::body(...)` from `body.cpp`:
initialisation list sets every field from its parameter and
`previous_position` from `position_param`; the constructor body then zeroes
`inv_mass` when `mass_param <= 0`. -/
def body_ctor (position_param velocity_param acceleration_param : vec2)
    (mass_param inv_mass_param radius_param restitution_param
      damping_param friction_param : ℚ) : Body :=
  let b : Body :=
    { position := position_param
      previous_position := position_param
      velocity := velocity_param
      acceleration := acceleration_param
      mass := mass_param
      inv_mass := inv_mass_param
      radius := radius_param
      damping := damping_param
      friction := friction_param
      restitution := restitution_param }
  if mass_param ≤ 0 then { b with inv_mass := 0 } else b

/-- The default constructor `body::body()` from `body.cpp`. -/
def bodyDefault : Body :=
  { position := ⟨0, 0⟩
    previous_position := ⟨0, 0⟩
    velocity := ⟨0, 0⟩
    acceleration := ⟨0, 0⟩
    mass := 0
    inv_mass := 0
    radius := 0
    damping := 0
    friction := 0
    restitution := 1 }

/-- Grid configuration from `include/world.hpp`; the in-class initialisers are
the structure's default field values (`cell_size` is `const`, fixed at 5). -/
structure GridInfo where
  min_x : ℚ := -100
  max_x : ℚ := 100
  max_y : ℚ := 100
  min_y : ℚ := -100
  cell_size : ℚ := 5
  num_cells_x : Int := 0
  num_cells_y : Int := 0
deriving DecidableEq, Repr

/-- The world from `include/world.hpp`: bodies, gravity, fixed tick duration,
grid configuration and the cell array (`std::vector<std::vector<body*>>`,
modelled with body indices in place of pointers).  `movementSystem` reads the
gravity field through the name `gravity_vector` of the parallel
`physics/world.hpp` header; it is the same datum as `gravedad` here. -/
structure World where
  grid_info : GridInfo
  bodies : List Body
  gravedad : vec2
  delta_time : ℚ
  grid : List (List Nat)
deriving DecidableEq, Repr

/-- The 3-argument constructor `world::world(b, gravedad, delta_time)` from
`world.cpp`: `grid_info` is default-initialised, `numCellsX/Y` are computed
into locals (`static_cast<int>(std::ceil ...)`, exact on the integer-valued
ceiling) and the grid is resized to `totalCells`; note the locals are never
stored back into `grid_info`. -/
def world_mk3 (b_param : List Body) (gravedad_param : vec2)
    (delta_time_param : ℚ) : World :=
  let gi : GridInfo := {}
  let width := gi.max_x - gi.min_x
  let height := gi.max_y - gi.min_y
  let numCellsX : Int := ⌈width / gi.cell_size⌉
  let numCellsY : Int := ⌈height / gi.cell_size⌉
  let totalCells : Int := numCellsX * numCellsY
  { grid_info := gi
    bodies := b_param
    gravedad := gravedad_param
    delta_time := delta_time_param
    grid := List.replicate totalCells.toNat [] }

/-- The grid reconfiguration block from `main.cpp` (lines 97–113): overwrite
the rectangle, recompute and this time store `num_cells_x/num_cells_y`, and
resize the cleared grid to `std::max(1, numCellsX * numCellsY)` cells. -/
def reconfigure (w : World)
    (vis_min_x vis_max_x vis_min_y vis_max_y : ℚ) : World :=
  let gi1 := { w.grid_info with
    min_x := vis_min_x, max_x := vis_max_x
    min_y := vis_min_y, max_y := vis_max_y }
  let width := gi1.max_x - gi1.min_x
  let height := gi1.max_y - gi1.min_y
  let numCellsX : Int := ⌈width / gi1.cell_size⌉
  let numCellsY : Int := ⌈height / gi1.cell_size⌉
  let totalCells : Int := max 1 (numCellsX * numCellsY)
  { w with
    grid_info := { gi1 with num_cells_x := numCellsX, num_cells_y := numCellsY }
    grid := List.replicate totalCells.toNat [] }

/-- Speed of a velocity vector:
`std::sqrt(v.x*v.x + v.y*v.y)` from `movementSystem.cpp` line 35.
`Rat.sqrt` stands for the real square root; it is exact whenever
`v.x*v.x + v.y*v.y` is a perfect square. -/
def speedOf (v : vec2) : ℚ := Rat.sqrt (v.x * v.x + v.y * v.y)

/-- Per-body step of `movementSystem::verlet_integration` (the loop body,
`movementSystem.cpp` lines 14–62): skip static bodies (`inv_mass <= 0`),
accumulate gravity, conditional damping and conditional friction into the
total acceleration, apply the Störmer–Verlet position update and recompute
the velocity as `(position - previous_position) * (1/delta_time)`. -/
def verletBody (delta_time : ℚ) (gravity_vector : vec2) (b : Body) : Body :=
  if b.inv_mass ≤ 0 then b
  else
    let delta_time_squared := delta_time * delta_time
    let inverse_delta_time := 1 / delta_time
    let accel_gravity := gravity_vector
    let accel_damped :=
      if b.damping ≠ 0 then accel_gravity - b.velocity * b.damping
      else accel_gravity
    let speed := speedOf b.velocity
    let total_acceleration :=
      if b.friction ≠ 0 ∧ speed > 1 / 1000000 then
        accel_damped - (b.velocity * (1 / speed)) * (b.friction * speed)
      else accel_damped
    let current_position := b.position
    let acceleration_term := total_acceleration * delta_time_squared
    let next_position :=
      b.position * (2 : ℚ) - b.previous_position + acceleration_term
    { b with
      previous_position := current_position
      position := next_position
      velocity := (next_position - current_position) * inverse_delta_time }

/-- `movementSystem::verlet_integration(world&)`: applies the per-body Verlet
step to every body of the world (the `for (body &current_body : ...)` loop). -/
def verlet_integration (w : World) : World :=
  { w with bodies := w.bodies.map (verletBody w.delta_time w.gravedad) }

set_option linter.unusedVariables false in
/-- `movementSystem::update(world&, float delta_time)` from
`movementSystem.cpp` lines 65–68: it calls `verlet_integration` and never
reads its `delta_time` parameter. -/
def movementSystem_update (simulation_world : World) (delta_time : ℚ) : World :=
  verlet_integration simulation_world

/-- The divisors of every division `movementSystem::verlet_integration`
performs, in source order: line 11 computes `1.0f / delta_time`
unconditionally, and line 38 computes `1.0f / speed` for each non-static
body with nonzero friction whose speed exceeds `1e-6`. -/
def verletDivisors (w : World) : List ℚ :=
  w.delta_time ::
    w.bodies.filterMap (fun b =>
      if b.inv_mass ≤ 0 then none
      else if b.friction ≠ 0 then
        let speed := speedOf b.velocity
        if speed > 1 / 1000000 then some speed else none
      else none)

/-- `world::update()` from `world.cpp` lines 20–36: the legacy semi-implicit
Euler tick — accumulate `aceleracion + gravedad`, integrate velocity then
position, and reset the acceleration accumulator to zero. -/
def world_update (w : World) : World :=
  { w with
    bodies := w.bodies.map (fun b =>
      let aceleracion_total : vec2 := b.acceleration + w.gravedad
      let velocidad : vec2 := b.velocity + aceleracion_total * w.delta_time
      let posicion : vec2 := b.position + velocidad * w.delta_time
      { b with
        velocity := velocidad
        position := posicion
        acceleration := ⟨0, 0⟩ }) }

/-- Modelled from the spec: `world::get_grid_index(const vec2&)` is declared
in `world.hpp` and called by `world::repoblar`, but its definition is not
among the provided sources.  Spec §4.1: map the position via
`floor((x - min_x)/cell_size)` and `floor((y - min_y)/cell_size)`, combine as
`cell_x + cell_y * num_cells_x`, and return a negative out-of-bounds sentinel
when the position lies outside `[min_x,max_x] × [min_y,max_y]`. -/
def get_grid_index (gi : GridInfo) (posicion : vec2) : Int :=
  if posicion.x < gi.min_x ∨ gi.max_x < posicion.x ∨
      posicion.y < gi.min_y ∨ gi.max_y < posicion.y then -1
  else
    ⌊(posicion.x - gi.min_x) / gi.cell_size⌋ +
      ⌊(posicion.y - gi.min_y) / gi.cell_size⌋ * gi.num_cells_x

/-- The spec's in-bounds condition for the world rectangle
(`[min_x,max_x] × [min_y,max_y]`, §4.1). -/
def inBounds (gi : GridInfo) (p : vec2) : Prop :=
  gi.min_x ≤ p.x ∧ p.x ≤ gi.max_x ∧ gi.min_y ≤ p.y ∧ p.y ≤ gi.max_y

instance (gi : GridInfo) (p : vec2) : Decidable (inBounds gi p) := by
  unfold inBounds; infer_instance

/-- `world::limpieza()` from `world.cpp` lines 37–43: `cell.clear()` on every
cell, leaving the cell array itself in place. -/
def limpieza (w : World) : World :=
  { w with grid := w.grid.map (fun _ => []) }

/-- The body of `world::repoblar`'s loop for one body: compute the grid index
of its position and, when the index is non-negative, append the body's
reference (its index `i` in the world's body list) to that cell.
`grid[tempIndex].push_back(&body)` performs no upper bound check in the C++
(an index past the end is undefined behaviour there); the embedding's
`List.set` leaves the grid unchanged in that case. -/
def insertBody (gi : GridInfo) (posicion : vec2) (i : Nat)
    (grid : List (List Nat)) : List (List Nat) :=
  let tempIndex := get_grid_index gi posicion
  if 0 ≤ tempIndex then
    grid.set tempIndex.toNat ((grid.getD tempIndex.toNat []).concat i)
  else grid

/-- `world::repoblar()` from `world.cpp` lines 44–54: iterate over the bodies
in order, inserting each one's reference into the cell of its position. -/
def repoblar (w : World) : World :=
  { w with
    grid := (List.range w.bodies.length).foldl
      (fun g i => insertBody w.grid_info (w.bodies.getD i bodyDefault).position i g)
      w.grid }

/-- Number of times body reference `i` occurs across all grid cells. -/
def gridCount (grid : List (List Nat)) (i : Nat) : Nat :=
  (grid.map (fun cell => cell.count i)).sum

/-- The snapshot taken on `KEY_O` in `main.cpp`: a copy of the world's body
collection. -/
def snapshot (w : World) : List Body := w.bodies

/-- The per-body fixup applied on restore (`main.cpp` lines 207–213):
recompute `inv_mass` from `mass`, and when `delta_time > 0` re-derive
`previous_position` from the restored velocity. -/
def restoreBody (dt : ℚ) (b : Body) : Body :=
  let b1 := { b with inv_mass := if 0 < b.mass then 1 / b.mass else 0 }
  if 0 < dt then
    { b1 with previous_position := b1.position - b1.velocity * dt }
  else b1

/-- The restore performed on `KEY_L` in `main.cpp` lines 201–215: when the
snapshot is non-empty, replace the world's bodies with the snapshot and apply
the per-body fixup; an empty snapshot is a no-op. -/
def restore (snap : List Body) (w : World) : World :=
  if snap.isEmpty then w
  else { w with bodies := snap.map (restoreBody w.delta_time) }

/-! Helper lemmas about `List.getD` over mapped body lists. -/

theorem getD_map_of_lt (f : Body → Body) (l : List Body) (i : Nat) (d : Body)
    (h : i < l.length) : (l.map f).getD i d = f (l.getD i d) := by
  induction l generalizing i with
  | nil => simp at h
  | cons a t ih =>
    cases i with
    | zero => rfl
    | succ n => simpa using ih n (by simpa using h)

theorem getD_map_of_le (f : Body → Body) (l : List Body) (i : Nat) (d : Body)
    (h : l.length ≤ i) : (l.map f).getD i d = d := by
  apply List.getD_eq_default
  simpa using h

/-- The Verlet step leaves a default-constructed body (static, `inv_mass = 0`)
unchanged. -/
theorem verletBody_default (dt : ℚ) (g : vec2) :
    verletBody dt g bodyDefault = bodyDefault := by
  simp [verletBody, bodyDefault]

/-- C9: for any two values of the `delta_time` argument,
`movementSystem::update` produces the same resulting world — it calls
`verlet_integration`, which reads only the world's stored `delta_time` field,
and never reads the `dt` parameter. -/
theorem update_ignores_dt_argument (w : World) (dt1 dt2 : ℚ) :
    movementSystem_update w dt1 = movementSystem_update w dt2 ∧
    movementSystem_update w dt1 = verlet_integration w :=
  ⟨rfl, rfl⟩

/-- C10: the body constructor stores `inv_mass = 0` when `mass_param ≤ 0` and
stores the `inv_mass` argument exactly as passed when `mass_param > 0` (it
never computes `1/mass` itself), and it initialises `previous_position` equal
to `position` with no correction for the initial velocity. -/
theorem body_ctor_inv_mass_and_prev
    (position_param velocity_param acceleration_param : vec2)
    (mass_param inv_mass_param radius_param restitution_param
      damping_param friction_param : ℚ) :
    (body_ctor position_param velocity_param acceleration_param mass_param
        inv_mass_param radius_param restitution_param damping_param
        friction_param).inv_mass
      = (if mass_param ≤ 0 then 0 else inv_mass_param) ∧
    (body_ctor position_param velocity_param acceleration_param mass_param
        inv_mass_param radius_param restitution_param damping_param
        friction_param).previous_position = position_param ∧
    (body_ctor position_param velocity_param acceleration_param mass_param
        inv_mass_param radius_param restitution_param damping_param
        friction_param).position = position_param ∧
    (body_ctor position_param velocity_param acceleration_param mass_param
        inv_mass_param radius_param restitution_param damping_param
        friction_param).velocity = velocity_param := by
  unfold body_ctor
  split <;> simp_all

/-- A concrete world exhibiting a body whose acceleration accumulator is
nonzero: one dynamic body with `acceleration = (1, 0)`. -/
def accWorld : World :=
  { grid_info := {}
    bodies := [{ bodyDefault with acceleration := ⟨1, 0⟩, mass := 1, inv_mass := 1 }]
    gravedad := ⟨0, -10⟩
    delta_time := 1
    grid := [] }

/-- C4 counterexample: after one `verlet_integration` tick the body's
acceleration field still holds `(1, 0)`, not zero — the Verlet integrator
neither consumes nor resets the accumulator. -/
theorem acceleration_not_reset_by_verlet_cex :
    ((verlet_integration accWorld).bodies.getD 0 bodyDefault).acceleration
      ≠ ⟨0, 0⟩ := by
  decide

/-- C4 amended: `verlet_integration` leaves every body's `acceleration` field
unchanged (the accumulator is neither consumed nor reset by the Verlet tick);
the consume-and-reset behaviour exists only in the legacy Euler tick
`world::update`, which zeroes every body's acceleration. -/
theorem acceleration_preserved_by_verlet_and_reset_by_euler
    (w : World) (i : Nat) :
    ((verlet_integration w).bodies.getD i bodyDefault).acceleration
      = (w.bodies.getD i bodyDefault).acceleration ∧
    ((world_update w).bodies.getD i bodyDefault).acceleration = ⟨0, 0⟩ := by
  constructor
  · by_cases h : i < w.bodies.length
    · rw [show (verlet_integration w).bodies
            = w.bodies.map (verletBody w.delta_time w.gravedad) from rfl,
        getD_map_of_lt _ _ _ _ h]
      unfold verletBody
      split <;> rfl
    · rw [show (verlet_integration w).bodies
            = w.bodies.map (verletBody w.delta_time w.gravedad) from rfl,
        getD_map_of_le _ _ _ _ (Nat.le_of_not_lt h)]
      rw [List.getD_eq_default _ _ (Nat.le_of_not_lt h)]
  · by_cases h : i < w.bodies.length
    · rw [show (world_update w).bodies = w.bodies.map _ from rfl,
        getD_map_of_lt _ _ _ _ h]
    · rw [show (world_update w).bodies = w.bodies.map _ from rfl,
        getD_map_of_le _ _ _ _ (Nat.le_of_not_lt h)]
      rfl

/-- The spec's total acceleration (§4.2 items 1–3): gravity, minus the linear
drag term `velocity * damping` when `damping ≠ 0`, minus the speed-
proportional friction term `normalize(velocity) * (friction * speed)` when
`friction ≠ 0` and the speed exceeds `1e-6`. -/
def totalAccelerationSpec (g : vec2) (b : Body) : vec2 :=
  g - (if b.damping ≠ 0 then b.velocity * b.damping else ⟨0, 0⟩)
    - (if b.friction ≠ 0 ∧ speedOf b.velocity > 1 / 1000000 then
        (b.velocity * (1 / speedOf b.velocity))
          * (b.friction * speedOf b.velocity)
      else ⟨0, 0⟩)

/-- The spec's Störmer–Verlet next position (§4.2 item 4):
`2*position - previous_position + total_acceleration * dt²`. -/
def nextPositionSpec (dt : ℚ) (g : vec2) (b : Body) : vec2 :=
  b.position * (2 : ℚ) - b.previous_position
    + totalAccelerationSpec g b * (dt * dt)

theorem vec2_sub_zero (a : vec2) : a - (⟨0, 0⟩ : vec2) = a := by
  cases a; simp [vec2.sub_def]

theorem sub_ite_zero (c : Prop) [Decidable c] (a x : vec2) :
    (a - if c then x else (⟨0, 0⟩ : vec2)) = if c then a - x else a := by
  split <;> simp [vec2_sub_zero]

/-- C1: one integration step, applied to a dynamic body (`inverse_mass > 0`),
sets the position to `2*position - previous_position + total_acceleration*dt²`
(with total acceleration = gravity minus the damping and friction terms),
sets `previous_position` to the pre-update position, and recomputes the
velocity as `(position - previous_position) / dt` on the updated fields. -/
theorem verlet_step_dynamic_body (w : World) (i : Nat)
    (hi : i < w.bodies.length)
    (hdyn : 0 < (w.bodies.getD i bodyDefault).inv_mass) :
    (verlet_integration w).bodies.getD i bodyDefault =
      { w.bodies.getD i bodyDefault with
        previous_position := (w.bodies.getD i bodyDefault).position
        position :=
          nextPositionSpec w.delta_time w.gravedad (w.bodies.getD i bodyDefault)
        velocity :=
          (nextPositionSpec w.delta_time w.gravedad (w.bodies.getD i bodyDefault)
              - (w.bodies.getD i bodyDefault).position)
            * (1 / w.delta_time) } := by
  rw [show (verlet_integration w).bodies
        = w.bodies.map (verletBody w.delta_time w.gravedad) from rfl,
    getD_map_of_lt _ _ _ _ hi]
  set b := w.bodies.getD i bodyDefault with hb
  unfold verletBody nextPositionSpec totalAccelerationSpec
  rw [if_neg (not_le.mpr hdyn)]
  simp only [sub_ite_zero]

/-- A concrete one-body world used to instantiate the Verlet step theorem. -/
def fallWorld : World :=
  { grid_info := {}
    bodies := [{ bodyDefault with mass := 1, inv_mass := 1 }]
    gravedad := ⟨0, -10⟩
    delta_time := 1
    grid := [] }

/-- Witness for C1 at a concrete dynamic body. -/
theorem verlet_step_dynamic_body_witness :
    0 < fallWorld.bodies.length ∧
    0 < (fallWorld.bodies.getD 0 bodyDefault).inv_mass ∧
    (verlet_integration fallWorld).bodies.getD 0 bodyDefault =
      { fallWorld.bodies.getD 0 bodyDefault with
        previous_position := (fallWorld.bodies.getD 0 bodyDefault).position
        position :=
          nextPositionSpec fallWorld.delta_time fallWorld.gravedad
            (fallWorld.bodies.getD 0 bodyDefault)
        velocity :=
          (nextPositionSpec fallWorld.delta_time fallWorld.gravedad
              (fallWorld.bodies.getD 0 bodyDefault)
            - (fallWorld.bodies.getD 0 bodyDefault).position)
            * (1 / fallWorld.delta_time) } :=
  ⟨by decide, by decide,
    verlet_step_dynamic_body fallWorld 0 (by decide) (by decide)⟩

/-- A static body (`inv_mass = 0`) is a fixed point of the per-body Verlet
step, so it is unchanged by any number of world ticks. -/
theorem verlet_iterate_static (n : Nat) : ∀ (w : World) (i : Nat),
    i < w.bodies.length →
    (w.bodies.getD i bodyDefault).inv_mass = 0 →
    (verlet_integration^[n] w).bodies.getD i bodyDefault
      = w.bodies.getD i bodyDefault := by
  induction n with
  | zero => intro w i _ _; simp
  | succ n ih =>
    intro w i hi hstatic
    rw [Function.iterate_succ_apply]
    have hbody : (verlet_integration w).bodies.getD i bodyDefault
        = w.bodies.getD i bodyDefault := by
      rw [show (verlet_integration w).bodies
            = w.bodies.map (verletBody w.delta_time w.gravedad) from rfl,
        getD_map_of_lt _ _ _ _ hi]
      unfold verletBody
      rw [if_pos (le_of_eq hstatic)]
    have hlen : (verlet_integration w).bodies.length = w.bodies.length := by
      simp [verlet_integration]
    rw [ih (verlet_integration w) i (by rw [hlen]; exact hi)
        (by rw [hbody]; exact hstatic), hbody]

/-- C2: a body with `inverse_mass == 0` keeps its position, previous position
and velocity across any number of integration steps. -/
theorem static_body_unchanged_many_steps (n : Nat) (w : World) (i : Nat)
    (hi : i < w.bodies.length)
    (hstatic : (w.bodies.getD i bodyDefault).inv_mass = 0) :
    ((verlet_integration^[n] w).bodies.getD i bodyDefault).position
        = (w.bodies.getD i bodyDefault).position ∧
    ((verlet_integration^[n] w).bodies.getD i bodyDefault).previous_position
        = (w.bodies.getD i bodyDefault).previous_position ∧
    ((verlet_integration^[n] w).bodies.getD i bodyDefault).velocity
        = (w.bodies.getD i bodyDefault).velocity := by
  rw [verlet_iterate_static n w i hi hstatic]
  exact ⟨rfl, rfl, rfl⟩

/-- A world containing one static obstacle with nonzero position and
velocity fields. -/
def staticWorld : World :=
  { grid_info := {}
    bodies := [{ bodyDefault with
      position := ⟨3, 4⟩, previous_position := ⟨1, 1⟩, velocity := ⟨5, -2⟩ }]
    gravedad := ⟨0, -10⟩
    delta_time := 1
    grid := [] }

/-- Witness for C2 after three ticks of the concrete static body. -/
theorem static_body_unchanged_many_steps_witness :
    0 < staticWorld.bodies.length ∧
    (staticWorld.bodies.getD 0 bodyDefault).inv_mass = 0 ∧
    (((verlet_integration^[3] staticWorld).bodies.getD 0 bodyDefault).position
        = (staticWorld.bodies.getD 0 bodyDefault).position ∧
      ((verlet_integration^[3] staticWorld).bodies.getD 0
          bodyDefault).previous_position
        = (staticWorld.bodies.getD 0 bodyDefault).previous_position ∧
      ((verlet_integration^[3] staticWorld).bodies.getD 0 bodyDefault).velocity
        = (staticWorld.bodies.getD 0 bodyDefault).velocity) :=
  ⟨by decide, by decide,
    static_body_unchanged_many_steps 3 staticWorld 0 (by decide) (by decide)⟩

/-- A world whose fixed tick duration is zero. -/
def dtZeroWorld : World :=
  { grid_info := {}
    bodies := []
    gravedad := ⟨0, 0⟩
    delta_time := 0
    grid := [] }

/-- C3 counterexample: with `delta_time = 0` the integration step performs a
division whose divisor is zero — line 11 computes `1.0f / delta_time` with no
guard, so zero is among the divisors of the step's divisions. -/
theorem inverse_dt_unguarded_cex : (0 : ℚ) ∈ verletDivisors dtZeroWorld := by
  decide

/-- C3 amended: the computation of `inverse_delta_time` is not guarded — with
`dt == 0` the step does divide by zero; for every `dt ≠ 0` the step performs
no division by zero (the only other divisor, the speed in the friction
branch, is guarded by `speed > 1e-6`). -/
theorem no_zero_divisor_when_dt_nonzero (w : World)
    (hdt : w.delta_time ≠ 0) : (0 : ℚ) ∉ verletDivisors w := by
  unfold verletDivisors
  intro hmem
  rcases List.mem_cons.mp hmem with h | h
  · exact hdt h.symm
  · rcases List.mem_filterMap.mp h with ⟨b, -, hb⟩
    dsimp only at hb
    split_ifs at hb with h1 h2 h3
    have hs := Option.some.inj hb
    rw [hs] at h3
    norm_num at h3

/-- A world with a positive tick duration and one (frictionless) body. -/
def dtPositiveWorld : World :=
  { grid_info := {}
    bodies := [bodyDefault]
    gravedad := ⟨0, -10⟩
    delta_time := 1 / 60
    grid := [] }

/-- Witness for the amended C3 at a concrete world with `dt = 1/60`. -/
theorem no_zero_divisor_when_dt_nonzero_witness :
    dtPositiveWorld.delta_time ≠ 0 ∧
    (0 : ℚ) ∉ verletDivisors dtPositiveWorld :=
  ⟨by simp [dtPositiveWorld],
    no_zero_divisor_when_dt_nonzero dtPositiveWorld (by simp [dtPositiveWorld])⟩

/-- An arbitrary concretely constructed world (empty body list). -/
def emptyCtorWorld : World := world_mk3 [] ⟨0, 0⟩ 0

/-- C5 counterexample: right after `world::world(...)` the grid holds
`ceil(200/5) * ceil(200/5) = 1600` cells, while
`grid_info.num_cells_x * grid_info.num_cells_y = 0 * 0 = 0` — the constructor
computes the cell counts into locals and never stores them. -/
theorem constructor_cell_count_cex :
    ¬ ((emptyCtorWorld.grid.length : Int)
        = emptyCtorWorld.grid_info.num_cells_x
            * emptyCtorWorld.grid_info.num_cells_y) := by
  intro h
  have hlen : emptyCtorWorld.grid.length = 1600 := by
    show (List.replicate _ _).length = 1600
    rw [List.length_replicate]
    norm_num
    rfl
  rw [hlen, show emptyCtorWorld.grid_info.num_cells_x = 0 from rfl,
    show emptyCtorWorld.grid_info.num_cells_y = 0 from rfl] at h
  norm_num at h

/-- C5 amended: after construction the grid's cell count equals
`ceil(width/cell_size) * ceil(height/cell_size) = 1600` computed from the
default rectangle, but the stored `num_cells_x`/`num_cells_y` remain `0`;
only the reconfiguration block in `main.cpp` stores the ceiling values, after
which the cell count equals `max 1 (num_cells_x * num_cells_y)`. -/
theorem cell_count_after_ctor_and_reconfigure
    (b : List Body) (g : vec2) (dt : ℚ) (w : World)
    (mnx mxx mny mxy : ℚ) :
    (world_mk3 b g dt).grid.length = 1600 ∧
    (world_mk3 b g dt).grid_info.num_cells_x = 0 ∧
    (world_mk3 b g dt).grid_info.num_cells_y = 0 ∧
    ((reconfigure w mnx mxx mny mxy).grid.length : Int)
      = max 1 ((reconfigure w mnx mxx mny mxy).grid_info.num_cells_x
          * (reconfigure w mnx mxx mny mxy).grid_info.num_cells_y) ∧
    (reconfigure w mnx mxx mny mxy).grid_info.num_cells_x
      = ⌈(mxx - mnx) / w.grid_info.cell_size⌉ ∧
    (reconfigure w mnx mxx mny mxy).grid_info.num_cells_y
      = ⌈(mxy - mny) / w.grid_info.cell_size⌉ := by
  refine ⟨?_, rfl, rfl, ?_, rfl, rfl⟩
  · show (List.replicate _ _).length = 1600
    rw [List.length_replicate]
    norm_num
    rfl
  · show ((List.replicate _ _).length : Int) = _
    rw [List.length_replicate]
    exact Int.toNat_of_nonneg (le_trans zero_le_one (le_max_left _ _))

/-- The restore fixup is the identity on a body that is already consistent:
its `inv_mass` matches its mass and its `previous_position` already encodes
its velocity. -/
theorem restoreBody_consistent (dt : ℚ) (b : Body) (hdt : 0 < dt)
    (h1 : b.inv_mass = if 0 < b.mass then 1 / b.mass else 0)
    (h2 : b.previous_position = b.position - b.velocity * dt) :
    restoreBody dt b = b := by
  unfold restoreBody
  rw [if_pos hdt]
  show ({ b with
    inv_mass := if 0 < b.mass then 1 / b.mass else 0
    previous_position := b.position - b.velocity * dt } : Body) = b
  rw [← h1, ← h2]

/-- C8: for a consistent world (every body's `inv_mass` matches its mass and
its `previous_position` encodes its velocity — the invariant every mutation
path of `main.cpp` re-establishes), restoring the snapshot just taken
reproduces the world exactly, so a subsequent integration step produces the
same result as without the snapshot/restore; restoring an empty snapshot is
a no-op. -/
theorem snapshot_restore_roundtrip (w : World)
    (hdt : 0 < w.delta_time)
    (hcons : ∀ b ∈ w.bodies,
      b.inv_mass = (if 0 < b.mass then 1 / b.mass else 0) ∧
      b.previous_position = b.position - b.velocity * w.delta_time) :
    restore (snapshot w) w = w ∧
    verlet_integration (restore (snapshot w) w) = verlet_integration w ∧
    restore [] w = w := by
  have hmap : ∀ l : List Body,
      (∀ b ∈ l, b ∈ w.bodies) → l.map (restoreBody w.delta_time) = l := by
    intro l
    induction l with
    | nil => intro _; rfl
    | cons a t ih =>
      intro hsub
      have ha := hcons a (hsub a (by simp))
      simp only [List.map_cons]
      rw [restoreBody_consistent w.delta_time a hdt ha.1 ha.2,
        ih (fun b hb => hsub b (by simp [hb]))]
  have hr : restore (snapshot w) w = w := by
    unfold restore snapshot
    split
    · rfl
    · rw [hmap w.bodies (fun b hb => hb)]
  exact ⟨hr, by rw [hr], rfl⟩

/-- A concrete consistent world: one dynamic body at rest. -/
def consistentWorld : World :=
  { grid_info := {}
    bodies := [{ bodyDefault with
      position := ⟨3, 4⟩, previous_position := ⟨3, 4⟩, velocity := ⟨0, 0⟩
      mass := 1, inv_mass := 1 }]
    gravedad := ⟨0, -10⟩
    delta_time := 1
    grid := [] }

/-- Witness for C8 at the concrete consistent world. -/
theorem snapshot_restore_roundtrip_witness :
    0 < consistentWorld.delta_time ∧
    (∀ b ∈ consistentWorld.bodies,
      b.inv_mass = (if 0 < b.mass then 1 / b.mass else 0) ∧
      b.previous_position
        = b.position - b.velocity * consistentWorld.delta_time) ∧
    (restore (snapshot consistentWorld) consistentWorld = consistentWorld ∧
      verlet_integration (restore (snapshot consistentWorld) consistentWorld)
        = verlet_integration consistentWorld ∧
      restore [] consistentWorld = consistentWorld) := by
  have hdt : 0 < consistentWorld.delta_time := by decide
  have hcons : ∀ b ∈ consistentWorld.bodies,
      b.inv_mass = (if 0 < b.mass then 1 / b.mass else 0) ∧
      b.previous_position
        = b.position - b.velocity * consistentWorld.delta_time := by
    simp [consistentWorld, bodyDefault, vec2.sub_def, vec2.smul_def]
  exact ⟨hdt, hcons, snapshot_restore_roundtrip consistentWorld hdt hcons⟩

/-! Counting lemmas for grid cells. -/

theorem gridCount_cleared (g : List (List Nat)) (i : Nat) :
    gridCount (g.map fun _ => []) i = 0 := by
  unfold gridCount
  induction g with
  | nil => rfl
  | cons c t ih => simp [ih]

theorem gridCount_set (g : List (List Nat)) (n : Nat) (j i : Nat)
    (h : n < g.length) :
    gridCount (g.set n ((g.getD n []).concat j)) i
      = gridCount g i + (if j = i then 1 else 0) := by
  induction g generalizing n with
  | nil => simp at h
  | cons c t ih =>
    cases n with
    | zero =>
      unfold gridCount
      simp [List.concat_eq_append, List.count_append, List.count_singleton']
      split <;> omega
    | succ m =>
      unfold gridCount
      simp only [List.set_cons_succ, List.getD_cons_succ, List.map_cons,
        List.sum_cons]
      have := ih m (by simpa using h)
      unfold gridCount at this
      omega

theorem set_of_length_le (g : List (List Nat)) (n : Nat) (x : List Nat)
    (h : g.length ≤ n) : g.set n x = g := by
  induction g generalizing n with
  | nil => rfl
  | cons c t ih =>
    cases n with
    | zero => simp at h
    | succ m => simp [List.set_cons_succ, ih m (by simpa using h)]

theorem insertBody_length (gi : GridInfo) (p : vec2) (j : Nat)
    (g : List (List Nat)) : (insertBody gi p j g).length = g.length := by
  simp only [insertBody]
  split <;> simp

theorem gridCount_insertBody (gi : GridInfo) (p : vec2) (j i : Nat)
    (g : List (List Nat)) :
    gridCount (insertBody gi p j g) i
      = gridCount g i
        + (if 0 ≤ get_grid_index gi p ∧ (get_grid_index gi p).toNat < g.length
              ∧ j = i then 1 else 0) := by
  unfold insertBody
  by_cases h0 : 0 ≤ get_grid_index gi p
  · rw [if_pos h0]
    by_cases h1 : (get_grid_index gi p).toNat < g.length
    · rw [gridCount_set g _ j i h1]
      by_cases h2 : j = i <;> simp [h0, h1, h2]
    · rw [set_of_length_le g _ _ (Nat.le_of_not_lt h1)]
      simp [h1]
  · rw [if_neg h0]
    simp [h0]

theorem foldInsert_length (gi : GridInfo) (ps : Nat → vec2) (l : List Nat) :
    ∀ g : List (List Nat),
    (l.foldl (fun acc j => insertBody gi (ps j) j acc) g).length = g.length := by
  induction l with
  | nil => intro g; rfl
  | cons a t ih =>
    intro g
    rw [List.foldl_cons, ih, insertBody_length]

theorem foldInsert_count_of_ne (gi : GridInfo) (ps : Nat → vec2) (i : Nat)
    (l : List Nat) : ∀ g : List (List Nat), (∀ j ∈ l, j ≠ i) →
    gridCount (l.foldl (fun acc j => insertBody gi (ps j) j acc) g) i
      = gridCount g i := by
  induction l with
  | nil => intro g _; rfl
  | cons a t ih =>
    intro g hne
    rw [List.foldl_cons, ih _ (fun j hj => hne j (List.mem_cons_of_mem a hj)),
      gridCount_insertBody]
    simp [hne a (List.mem_cons_self a t)]

theorem foldInsert_count_of_neg (gi : GridInfo) (ps : Nat → vec2) (i : Nat)
    (hneg : get_grid_index gi (ps i) < 0) (m : Nat) :
    ∀ g : List (List Nat),
    gridCount ((List.range m).foldl (fun acc j => insertBody gi (ps j) j acc) g) i
      = gridCount g i := by
  induction m with
  | zero => intro g; rfl
  | succ m ih =>
    intro g
    rw [List.range_succ, List.foldl_append, List.foldl_cons, List.foldl_nil,
      gridCount_insertBody, ih g]
    by_cases hmi : m = i
    · subst hmi
      simp [not_le.mpr hneg]
    · simp [hmi]

theorem foldInsert_count_once (gi : GridInfo) (ps : Nat → vec2) (i : Nat) :
    ∀ (m : Nat) (g : List (List Nat)), i < m →
    0 ≤ get_grid_index gi (ps i) →
    (get_grid_index gi (ps i)).toNat < g.length →
    gridCount ((List.range m).foldl (fun acc j => insertBody gi (ps j) j acc) g) i
      = gridCount g i + 1 := by
  intro m
  induction m with
  | zero => intro g hlt _ _; omega
  | succ m ih =>
    intro g hlt h0 h1
    rw [List.range_succ, List.foldl_append, List.foldl_cons, List.foldl_nil,
      gridCount_insertBody]
    by_cases hmi : i < m
    · rw [ih g hmi h0 h1]
      have hne : ¬ m = i := by omega
      simp [hne]
    · have hmi' : m = i := by omega
      subst hmi'
      rw [foldInsert_count_of_ne gi ps m (List.range m) g
        (fun j hj => by simp only [List.mem_range] at hj; omega)]
      rw [foldInsert_length gi ps (List.range m) g]
      simp [h0, h1]

/-- A position outside the world rectangle maps to the negative sentinel. -/
theorem get_grid_index_neg_of_not_inBounds (gi : GridInfo) (p : vec2)
    (h : ¬ inBounds gi p) : get_grid_index gi p = -1 := by
  unfold get_grid_index
  rw [if_pos]
  unfold inBounds at h
  push_neg at h
  by_cases h1 : p.x < gi.min_x
  · exact Or.inl h1
  · by_cases h2 : gi.max_x < p.x
    · exact Or.inr (Or.inl h2)
    · by_cases h3 : p.y < gi.min_y
      · exact Or.inr (Or.inr (Or.inl h3))
      · exact Or.inr (Or.inr (Or.inr
          (h (not_lt.mp h1) (not_lt.mp h2) (not_lt.mp h3))))

/-- C7: a body whose position lies outside the world rectangle gets the
negative out-of-bounds sentinel from the position-to-cell mapping, and
`repoblar` silently leaves it out of every grid cell: after a clear and
repopulate it occurs in no cell, and a repopulate never adds an occurrence of
its reference. -/
theorem out_of_bounds_body_excluded (w : World) (i : Nat)
    (hi : i < w.bodies.length)
    (hout : ¬ inBounds w.grid_info ((w.bodies.getD i bodyDefault).position)) :
    get_grid_index w.grid_info ((w.bodies.getD i bodyDefault).position) < 0 ∧
    gridCount (repoblar (limpieza w)).grid i = 0 ∧
    gridCount (repoblar w).grid i = gridCount w.grid i := by
  have hs : get_grid_index w.grid_info
      ((w.bodies.getD i bodyDefault).position) = -1 :=
    get_grid_index_neg_of_not_inBounds _ _ hout
  have hneg : get_grid_index w.grid_info
      ((w.bodies.getD i bodyDefault).position) < 0 := by
    rw [hs]; decide
  refine ⟨hneg, ?_, ?_⟩
  · have h1 : gridCount (repoblar (limpieza w)).grid i
        = gridCount (limpieza w).grid i :=
      foldInsert_count_of_neg w.grid_info
        (fun j => (w.bodies.getD j bodyDefault).position) i hneg
        w.bodies.length (limpieza w).grid
    rw [h1]
    exact gridCount_cleared w.grid i
  · exact foldInsert_count_of_neg w.grid_info
      (fun j => (w.bodies.getD j bodyDefault).position) i hneg
      w.bodies.length w.grid

/-- A world with default rectangle whose single body sits outside it. -/
def escapedWorld : World :=
  { grid_info := {}
    bodies := [{ bodyDefault with position := ⟨200, 0⟩ }]
    gravedad := ⟨0, -10⟩
    delta_time := 1
    grid := [[], []] }

/-- Witness for C7 at the concrete out-of-bounds body. -/
theorem out_of_bounds_body_excluded_witness :
    0 < escapedWorld.bodies.length ∧
    ¬ inBounds escapedWorld.grid_info
      ((escapedWorld.bodies.getD 0 bodyDefault).position) ∧
    (get_grid_index escapedWorld.grid_info
        ((escapedWorld.bodies.getD 0 bodyDefault).position) < 0 ∧
      gridCount (repoblar (limpieza escapedWorld)).grid 0 = 0 ∧
      gridCount (repoblar escapedWorld).grid 0
        = gridCount escapedWorld.grid 0) :=
  ⟨by decide, by decide,
    out_of_bounds_body_excluded escapedWorld 0 (by decide) (by decide)⟩


/-- The operational world of `main.cpp`: constructed, then reconfigured to
the visible rectangle `[-60,60] × [-40,40]` (24 × 16 cells, 384 in total),
holding one body on the top boundary at `(0, 40)`. -/
def mainGridWorld : World :=
  reconfigure
    (world_mk3
      [{ bodyDefault with position := ⟨0, 40⟩, mass := 1, inv_mass := 1 }]
      ⟨0, -49/5⟩ (1/60))
    (-60) 60 (-40) 40

/-- C6 counterexample: in the reconfigured `main.cpp` grid the body at
`(0, 40)` is in bounds of the rectangle, yet its computed cell index is
`12 + 16*24 = 396`, past the end of the 384-cell array — `repoblar` writes
out of range (undefined behaviour in the C++, a dropped insertion in the
embedding), so after a clear and repopulate the body appears in zero cells,
not exactly one. -/
theorem repopulate_misses_inbounds_body_cex :
    inBounds mainGridWorld.grid_info
      ((mainGridWorld.bodies.getD 0 bodyDefault).position) ∧
    gridCount (repoblar (limpieza mainGridWorld)).grid 0 = 0 := by
  have hidx : get_grid_index mainGridWorld.grid_info
      ((mainGridWorld.bodies.getD 0 bodyDefault).position) = 396 := by
    show (if (0 : ℚ) < -60 ∨ (60 : ℚ) < 0 ∨ (40 : ℚ) < -40 ∨ (40 : ℚ) < 40
        then (-1 : Int)
        else ⌊((0 : ℚ) - -60) / 5⌋
          + ⌊((40 : ℚ) - -40) / 5⌋ * ⌈((60 : ℚ) - -60) / 5⌉) = 396
    rw [if_neg (by norm_num)]
    norm_num
  have hlen : (limpieza mainGridWorld).grid.length = 384 := by
    show (List.map _ (List.replicate
      (Int.toNat (max 1 (⌈((60 : ℚ) - -60) / 5⌉ * ⌈((40 : ℚ) - -40) / 5⌉)))
      [])).length = 384
    rw [List.length_map, List.length_replicate]
    norm_num
    rfl
  constructor
  · show (-60 : ℚ) ≤ 0 ∧ (0 : ℚ) ≤ 60 ∧ (-40 : ℚ) ≤ 40 ∧ (40 : ℚ) ≤ 40
    norm_num
  · have hnotlt : ¬ ((get_grid_index mainGridWorld.grid_info
        ((mainGridWorld.bodies.getD 0 bodyDefault).position)).toNat
          < (limpieza mainGridWorld).grid.length) := by
      rw [hidx, hlen]
      decide
    have h := gridCount_insertBody mainGridWorld.grid_info
      ((mainGridWorld.bodies.getD 0 bodyDefault).position) 0 0
      (limpieza mainGridWorld).grid
    rw [if_neg (fun hc => hnotlt hc.2.1)] at h
    have hzero : gridCount (limpieza mainGridWorld).grid 0 = 0 :=
      gridCount_cleared mainGridWorld.grid 0
    calc gridCount (repoblar (limpieza mainGridWorld)).grid 0
        = gridCount (insertBody mainGridWorld.grid_info
            ((mainGridWorld.bodies.getD 0 bodyDefault).position) 0
            (limpieza mainGridWorld).grid) 0 := rfl
      _ = gridCount (limpieza mainGridWorld).grid 0 + 0 := h
      _ = 0 := by rw [hzero]

/-- C6 amended: clearing leaves every cell empty and keeps the cell count;
after a clear then repopulate, a body appears in exactly one grid cell
provided its computed grid index is non-negative and lies within the cell
array — the in-bounds position alone does not guarantee this (see the
counterexample at `(0, 40)` in the reconfigured grid). -/
theorem grid_clear_and_repopulate_in_range (w : World) (i : Nat)
    (hi : i < w.bodies.length)
    (h0 : 0 ≤ get_grid_index w.grid_info
      ((w.bodies.getD i bodyDefault).position))
    (h1 : (get_grid_index w.grid_info
      ((w.bodies.getD i bodyDefault).position)).toNat < w.grid.length) :
    ((limpieza w).grid.length = w.grid.length ∧
      ∀ cell ∈ (limpieza w).grid, cell = []) ∧
    gridCount (repoblar (limpieza w)).grid i = 1 := by
  constructor
  · constructor
    · simp [limpieza]
    · intro cell hcell
      simp only [limpieza, List.mem_map] at hcell
      obtain ⟨a, -, ha⟩ := hcell
      exact ha.symm
  · have h1' : (get_grid_index w.grid_info
        ((w.bodies.getD i bodyDefault).position)).toNat
          < (limpieza w).grid.length := by
      have hlen : (limpieza w).grid.length = w.grid.length := by
        simp [limpieza]
      rw [hlen]
      exact h1
    have hcount : gridCount (repoblar (limpieza w)).grid i
        = gridCount (limpieza w).grid i + 1 :=
      foldInsert_count_once w.grid_info
        (fun j => (w.bodies.getD j bodyDefault).position) i w.bodies.length
        (limpieza w).grid hi h0 h1'
    rw [hcount, show gridCount (limpieza w).grid i = 0 from
      gridCount_cleared w.grid i]

/-- The `main.cpp` reconfigured world with one body strictly inside the
rectangle, at `(0, 0)` (cell index `12 + 8*24 = 204`, within the 384 cells). -/
def mainGridWorldInner : World :=
  reconfigure
    (world_mk3
      [{ bodyDefault with position := ⟨0, 0⟩, mass := 1, inv_mass := 1 }]
      ⟨0, -49/5⟩ (1/60))
    (-60) 60 (-40) 40

/-- Witness for the amended C6 at the concrete in-range body. -/
theorem grid_clear_and_repopulate_in_range_witness :
    0 < mainGridWorldInner.bodies.length ∧
    0 ≤ get_grid_index mainGridWorldInner.grid_info
      ((mainGridWorldInner.bodies.getD 0 bodyDefault).position) ∧
    (get_grid_index mainGridWorldInner.grid_info
      ((mainGridWorldInner.bodies.getD 0 bodyDefault).position)).toNat
        < mainGridWorldInner.grid.length ∧
    (((limpieza mainGridWorldInner).grid.length
          = mainGridWorldInner.grid.length ∧
        ∀ cell ∈ (limpieza mainGridWorldInner).grid, cell = []) ∧
      gridCount (repoblar (limpieza mainGridWorldInner)).grid 0 = 1) := by
  have hidxw : get_grid_index mainGridWorldInner.grid_info
      ((mainGridWorldInner.bodies.getD 0 bodyDefault).position) = 204 := by
    show (if (0 : ℚ) < -60 ∨ (60 : ℚ) < 0 ∨ (0 : ℚ) < -40 ∨ (40 : ℚ) < 0
        then (-1 : Int)
        else ⌊((0 : ℚ) - -60) / 5⌋
          + ⌊((0 : ℚ) - -40) / 5⌋ * ⌈((60 : ℚ) - -60) / 5⌉) = 204
    rw [if_neg (by norm_num)]
    norm_num
  have hlenw : mainGridWorldInner.grid.length = 384 := by
    show (List.replicate
      (Int.toNat (max 1 (⌈((60 : ℚ) - -60) / 5⌉ * ⌈((40 : ℚ) - -40) / 5⌉)))
      []).length = 384
    rw [List.length_replicate]
    norm_num
    rfl
  have h0w : 0 ≤ get_grid_index mainGridWorldInner.grid_info
      ((mainGridWorldInner.bodies.getD 0 bodyDefault).position) := by
    rw [hidxw]
    decide
  have h1w : (get_grid_index mainGridWorldInner.grid_info
      ((mainGridWorldInner.bodies.getD 0 bodyDefault).position)).toNat
        < mainGridWorldInner.grid.length := by
    rw [hidxw, hlenw]
    decide
  exact ⟨by decide, h0w, h1w,
    grid_clear_and_repopulate_in_range mainGridWorldInner 0 (by decide)
      h0w h1w⟩
